import Mathlib

/-!
Verification of the resume-suggestion generator (src/old_generator.py).

The module is embedded shallowly: Python dynamic values become the
inductive type PyVal; the mutable suggestions list and the sequence of
oracle calls become the explicit state GenState threaded through the
handlers; the external rewrite oracle (llm_call) becomes a function
parameter receiving the index of the call, so arbitrary oracle
behaviours, including stateful ones, are representable.  Machine-level
concerns do not arise: all data is strings, lists and mappings.
-/

/-- Python-like dynamic value covering the shapes the generator inspects.
Values other than None, str, list, tuple and dict are abstracted by the
constructor other, which records only the truthiness of the value
(for example True is rendered as other true and 0 as other false);
the generator never looks at anything else of such values. -/
inductive PyVal where
  | none
  | str (s : String)
  | list (xs : List PyVal)
  | tuple (xs : List PyVal)
  | dict (entries : List (String × PyVal))
  | other (truthy : Bool)

/-- Python truthiness of a value: None and empty collections are falsy,
a string is truthy when non-empty. -/
def PyVal.truthy : PyVal → Bool
  | .none => false
  | .str s => !s.isEmpty
  | .list xs => !xs.isEmpty
  | .tuple xs => !xs.isEmpty
  | .dict es => !es.isEmpty
  | .other b => b

/-- Test for the Python value None. -/
def PyVal.isNone : PyVal → Bool
  | .none => true
  | _ => false

/-- Python dict.get with default None: the value of the first entry with
the given key, or None when the key is absent. -/
def dictGet (entries : List (String × PyVal)) (k : String) : PyVal :=
  match entries.find? (fun e => e.1 == k) with
  | some e => e.2
  | Option.none => PyVal.none

/-- Python membership test on a dict: key in d. -/
def keyIn (entries : List (String × PyVal)) (k : String) : Bool :=
  entries.any (fun e => e.1 == k)

/-- Truthiness of d.get(k), the way the handlers test issue flags. -/
def flagTruthy (d : List (String × PyVal)) (k : String) : Bool :=
  (dictGet d k).truthy

/-- Modelled from the spec: the ResumeSuggestion record of
backend.resume_improv_lib.schemas (module not under src/); spec section 3
lists its four string attributes, stored verbatim.  The field
sectionLabel renders the attribute named section, a reserved word in
Lean. -/
structure ResumeSuggestion where
  sectionLabel : String
  issue : String
  original_text : String
  improved_text : String
deriving DecidableEq

/-- Modelled from the spec: the external rewrite oracle, llm_call of
backend.resume_improv_lib.llm_handler (module not under src/, and
explicitly out of scope in the spec).  It receives the index of the call
within the run, the flattened text and the instruction, and returns the
rewritten string, the empty string standing for any falsy failure
result. -/
abbrev Oracle := Nat → String → String → String

/-- State threaded through the generator: the suggestions list the
Python code mutates, plus the trace of (text, instruction) oracle calls
made so far, in order. -/
structure GenState where
  suggestions : List ResumeSuggestion
  calls : List (String × String)
deriving DecidableEq

/-- Python `a or b` on strings: b when a is falsy (empty), a otherwise. -/
def pyOr (a b : String) : String :=
  if a.isEmpty then b else a

/-- Python str.strip: remove leading and trailing whitespace, modelled
structurally on the character list so that concrete evaluation reduces. -/
def pyStrip (s : String) : String :=
  String.mk (((s.data.dropWhile Char.isWhitespace).reverse.dropWhile
    Char.isWhitespace).reverse)

/-- Python str.lower: lowercase every character, modelled structurally
on the character list so that concrete evaluation reduces. -/
def pyLower (s : String) : String :=
  String.mk (s.data.map Char.toLower)

/-- Embeds _append_if_changed (src/old_generator.py lines 10 to 30): the
Change Filter.  Appends the suggestion only when the improved text is
truthy and its trimmed lowercased form is non-empty and different from
the trimmed lowercased original. -/
def append_if_changed (out : List ResumeSuggestion)
    (sectionLabel issue original improved : String) : List ResumeSuggestion :=
  if improved.isEmpty then out
  else
    let orig_norm := pyLower (pyStrip (pyOr original ""))
    let imp_norm := pyLower (pyStrip improved)
    if !imp_norm.isEmpty && imp_norm != orig_norm then
      out ++ [{ sectionLabel := sectionLabel, issue := issue,
                original_text := original, improved_text := improved }]
    else out

/-- Embeds the ubiquitous two-line pattern of the handlers:
improved = llm_call(client, original, instruction) followed by
_append_if_changed(suggestions, label, issue, original, improved).
The oracle is consulted at the current call index and the call is
recorded in the trace. -/
def tryImprove (oracle : Oracle) (s : GenState)
    (sectionLabel issue original instruction : String) : GenState :=
  let improved := oracle s.calls.length original instruction
  { suggestions := append_if_changed s.suggestions sectionLabel issue original improved
    calls := s.calls ++ [(original, instruction)] }

/-- One scheduled oracle attempt: section label, issue label, flattened
original text and rewrite instruction. -/
structure Cand where
  sectionLabel : String
  issue : String
  original : String
  instruction : String

/-- Run a list of scheduled attempts in order from a state. -/
def runCands (oracle : Oracle) : GenState → List Cand → GenState
  | s, [] => s
  | s, c :: cs =>
      runCands oracle (tryImprove oracle s c.sectionLabel c.issue c.original c.instruction) cs

/-- Suggestions produced by a list of scheduled attempts when the first
of them is the n-th oracle call of the run: each attempt contributes the
(empty or singleton) output of the Change Filter on its oracle answer. -/
def emit (oracle : Oracle) : Nat → List Cand → List ResumeSuggestion
  | _, [] => []
  | n, c :: cs =>
      append_if_changed [] c.sectionLabel c.issue c.original (oracle n c.original c.instruction)
        ++ emit oracle (n + 1) cs

/-- String elements of a Python list, in order (isinstance str filter). -/
def stringsOf (xs : List PyVal) : List String :=
  xs.filterMap (fun v => match v with | PyVal.str s => some s | _ => Option.none)

/-- Embeds the first loop of _combine_entry_text: try the given keys in
order, returning the stripped value of the first key whose value is a
string that is non-empty after stripping. -/
def firstNonBlankField (entries : List (String × PyVal)) : List String → Option String
  | [] => Option.none
  | k :: rest =>
    match dictGet entries k with
    | PyVal.str v => if !(pyStrip v).isEmpty then some (pyStrip v) else firstNonBlankField entries rest
    | _ => firstNonBlankField entries rest

/-- Embeds the last-resort branch of _combine_entry_text: collect every
string-valued field and every string element inside list or tuple valued
fields, in mapping iteration order, and join the non-blank ones. -/
def lastResortJoin (entries : List (String × PyVal)) : String :=
  let parts := (entries.map (fun e =>
    match e.2 with
    | PyVal.str s => [s]
    | PyVal.list xs => stringsOf xs
    | PyVal.tuple xs => stringsOf xs
    | _ => ([] : List String))).flatten
  String.intercalate " • " (parts.filter (fun p => !(pyStrip p).isEmpty))

/-- Embeds _combine_entry_text (src/old_generator.py lines 33 to 71):
the Entry Flattener. -/
def combine_entry_text (entry : PyVal) : String :=
  match entry with
  | PyVal.none => ""
  | PyVal.str s => s
  | PyVal.dict entries =>
    match firstNonBlankField entries ["description", "details", "summary", "line", "text"] with
    | some v => v
    | Option.none =>
      match dictGet entries "bullets" with
      | PyVal.list bs =>
        if !bs.isEmpty then String.intercalate " • " (stringsOf bs)
        else lastResortJoin entries
      | _ => lastResortJoin entries
  | PyVal.list xs => String.intercalate " • " (stringsOf xs)
  | _ => ""

/-- Embeds _get_items (src/old_generator.py lines 74 to 80): the Section
Resolver for item lists.  Returns the value of the first key whose value
is a list; any other value, or an absent key, lets the search continue;
the empty list is returned when no key matches. -/
def get_items (resume : List (String × PyVal)) : List String → List PyVal
  | [] => []
  | k :: rest =>
    match dictGet resume k with
    | PyVal.list items => items
    | _ => get_items resume rest

/-- Embeds _get_section_issues (src/old_generator.py lines 83 to 91):
the Section Resolver for analysis payloads.  Returns the value of the
first key present in the analysis, whatever its type; None when no key
is present. -/
def get_section_issues (analysis : List (String × PyVal)) : List String → PyVal
  | [] => PyVal.none
  | k :: rest => if keyIn analysis k then dictGet analysis k else get_section_issues analysis rest

/-- Key aliases for the experience section. -/
def EXPERIENCE_KEYS : List String := ["experience", "work_experience", "work", "professional_experience"]

/-- Key aliases for the internships section. -/
def INTERNSHIP_KEYS : List String := ["internships", "internship"]

/-- Key aliases for the education section. -/
def EDUCATION_KEYS : List String := ["education", "educations"]

/-- Key aliases for the awards section. -/
def AWARDS_KEYS : List String := ["awards_achievements", "awards", "achievements", "honors"]

/-- Key aliases for the positions-of-responsibility section. -/
def POR_KEYS : List String := ["positions_of_responsibility", "leadership", "por"]

/-- Key aliases for the co-curricular section. -/
def CO_CURR_KEYS : List String := ["co_curricular", "co_curricular_activities", "cocurricular"]

/-- Key aliases for the extra-curricular section. -/
def EXTRA_CURR_KEYS : List String := ["extra_curricular", "extracurricular", "extracurricular_activities"]

/-- Key aliases for the skills section. -/
def SKILLS_KEYS : List String := ["skills"]

/-- Key aliases for the summary section. -/
def SUMMARY_KEYS : List String := ["summary", "objective", "profile"]

/-- Instruction for the no_metrics and missing_metrics flags. -/
def instr_no_metrics : String := "Add measurable impact and metrics without inventing facts"

/-- Instruction for the weak_action_verbs flag. -/
def instr_weak_verbs : String := "Strengthen action verbs; start with a strong verb"

/-- Instruction for the responsibility_over_achievement flag. -/
def instr_achievement : String := "Rewrite as an achievement with outcome and scale"

/-- Instruction for too_wordy and too_long on experience-like items. -/
def instr_concise_exp : String := "Make this a concise one-line resume bullet"

/-- Instruction for the missing_keywords flag. -/
def instr_keywords : String := "Include job-relevant keywords naturally if present in input"

/-- Instruction for too_wordy and too_long on simple-list items. -/
def instr_concise_simple : String := "Make this concise, single resume bullet"

/-- Instruction for the too_generic education flag. -/
def instr_edu_generic : String := "Rewrite as a clean one-line education entry: Degree, Major — Institute, Location — Dates. Include GPA/CGPA and honors only if present in input. Do not invent."

/-- Instruction for the missing_dates education flag. -/
def instr_edu_dates : String := "Standardize dates to MMM YYYY or YYYY range if present; keep concise; do not fabricate."

/-- Instruction for the missing_gpa education flag. -/
def instr_edu_gpa : String := "If GPA/CGPA is present in the input, include it in a standard format; otherwise omit."

/-- Instruction for too_wordy and too_long education flags. -/
def instr_edu_concise : String := "Make this a single concise line focusing on degree, institute, location, dates (and GPA if present)."

/-- Instruction for the section-level education cleanup. -/
def instr_edu_block : String := "Polish education entries to one-line standardized format: Degree, Major — Institute, Location — Dates — GPA/CGPA (if present). Do not invent any data."

/-- Instruction for the skills rewrite. -/
def instr_skills : String := "Cluster by category (e.g., Languages, Frameworks, Tools) and include proficiency levels only if present in input. Keep it concise."

/-- Instruction for the too_generic summary flag. -/
def instr_summary_generic : String := "Make summary specific and tailored to the target role"

/-- Instruction for the too_long summary flag. -/
def instr_summary_concise : String := "Make summary concise (2–3 lines)"

/-- Generic polish instruction passed for the awards section. -/
def gi_awards : String := "Rewrite as crisp, impact-focused bullets; keep titles and recognition clear"

/-- Generic polish instruction passed for the positions-of-responsibility section. -/
def gi_por : String := "Emphasize leadership, scope, and outcomes; keep bullets concise and achievement-focused"

/-- Generic polish instruction passed for the co-curricular section. -/
def gi_co_curr : String := "Refine to concise bullets showing relevance and impact; avoid fluff"

/-- Generic polish instruction passed for the extra-curricular section. -/
def gi_extra_curr : String := "Highlight leadership, scale, achievements; keep it to tight resume bullets"

/-- Body of one iteration of the loop of _process_experience_like
(src/old_generator.py lines 121 to 147): skip non-dict issue entries,
flatten the aligned item (an out-of-range index yields the empty
string), skip empty text, then check the recognized flags in the fixed
source order, each firing one oracle attempt. -/
def expStep (oracle : Oracle) (sectionLabel : String) (items : List PyVal)
    (s : GenState) (idx : Nat) (issue_dict : PyVal) : GenState :=
  match issue_dict with
  | PyVal.dict d =>
    let original := combine_entry_text (items.getD idx (PyVal.str ""))
    if original.isEmpty then s
    else
      let s1 := if flagTruthy d "no_metrics" || flagTruthy d "missing_metrics" then
          tryImprove oracle s sectionLabel "No measurable impact" original instr_no_metrics
        else s
      let s2 := if flagTruthy d "weak_action_verbs" then
          tryImprove oracle s1 sectionLabel "Weak action verbs" original instr_weak_verbs
        else s1
      let s3 := if flagTruthy d "responsibility_over_achievement" then
          tryImprove oracle s2 sectionLabel "Not achievement-oriented" original instr_achievement
        else s2
      let s4 := if flagTruthy d "too_wordy" || flagTruthy d "too_long" then
          tryImprove oracle s3 sectionLabel "Too wordy" original instr_concise_exp
        else s3
      if flagTruthy d "missing_keywords" then
        tryImprove oracle s4 sectionLabel "Missing keywords" original instr_keywords
      else s4
  | _ => s

/-- Loop of _process_experience_like: enumerate the issue entries. -/
def expLoop (oracle : Oracle) (sectionLabel : String) (items : List PyVal) :
    Nat → GenState → List PyVal → GenState
  | _, s, [] => s
  | idx, s, v :: rest =>
      expLoop oracle sectionLabel items (idx + 1) (expStep oracle sectionLabel items s idx v) rest

/-- Embeds _process_experience_like (src/old_generator.py lines 107 to
147): non-list issue payloads are silently ignored. -/
def process_experience_like (oracle : Oracle) (s : GenState) (sectionLabel : String)
    (items : List PyVal) (issues : PyVal) : GenState :=
  match issues with
  | PyVal.list il => expLoop oracle sectionLabel items 0 s il
  | _ => s

/-- Body of one iteration of the per-item loop of
_process_simple_list_section (src/old_generator.py lines 163 to 185):
the two recognized flag groups fire independently, and a non-empty flag
mapping none of whose recognized flags matched falls back to one generic
polish attempt labeled Improve phrasing. -/
def simpleStep (oracle : Oracle) (sectionLabel generic_instruction : String)
    (items : List PyVal) (s : GenState) (idx : Nat) (issue_dict : PyVal) : GenState :=
  match issue_dict with
  | PyVal.dict d =>
    let original := combine_entry_text (items.getD idx (PyVal.str ""))
    if original.isEmpty then s
    else
      let applied1 := flagTruthy d "too_generic" || flagTruthy d "missing_impact"
      let s1 := if applied1 then
          tryImprove oracle s sectionLabel "Too generic" original generic_instruction
        else s
      let applied2 := flagTruthy d "too_wordy" || flagTruthy d "too_long"
      let s2 := if applied2 then
          tryImprove oracle s1 sectionLabel "Too wordy" original instr_concise_simple
        else s1
      if !(applied1 || applied2) && !d.isEmpty then
        tryImprove oracle s2 sectionLabel "Improve phrasing" original generic_instruction
      else s2
  | _ => s

/-- Loop of _process_simple_list_section over per-item issues. -/
def simpleLoop (oracle : Oracle) (sectionLabel generic_instruction : String) (items : List PyVal) :
    Nat → GenState → List PyVal → GenState
  | _, s, [] => s
  | idx, s, v :: rest =>
      simpleLoop oracle sectionLabel generic_instruction items (idx + 1)
        (simpleStep oracle sectionLabel generic_instruction items s idx v) rest

/-- Embeds _process_simple_list_section (src/old_generator.py lines 150
to 192): per-item issues when the payload is a list, one whole-section
block rewrite when it is a dict with a recognized section-level flag. -/
def process_simple_list_section (oracle : Oracle) (s : GenState) (sectionLabel : String)
    (items : List PyVal) (issues : PyVal) (generic_instruction : String) : GenState :=
  match issues with
  | PyVal.list il => simpleLoop oracle sectionLabel generic_instruction items 0 s il
  | PyVal.dict d =>
    if flagTruthy d "too_generic" || flagTruthy d "too_long" || flagTruthy d "missing_impact" then
      let block := String.intercalate " • " (items.map combine_entry_text)
      if block.isEmpty then s
      else tryImprove oracle s sectionLabel "Section too generic" block generic_instruction
    else s
  | _ => s

/-- Body of one iteration of the per-item loop of _process_education
(src/old_generator.py lines 205 to 234); the section label is the fixed
string education. -/
def eduStep (oracle : Oracle) (items : List PyVal)
    (s : GenState) (idx : Nat) (issue_dict : PyVal) : GenState :=
  match issue_dict with
  | PyVal.dict d =>
    let original := combine_entry_text (items.getD idx (PyVal.str ""))
    if original.isEmpty then s
    else
      let s1 := if flagTruthy d "too_generic" then
          tryImprove oracle s "education" "Too generic" original instr_edu_generic
        else s
      let s2 := if flagTruthy d "missing_dates" then
          tryImprove oracle s1 "education" "Missing dates" original instr_edu_dates
        else s1
      let s3 := if flagTruthy d "missing_gpa" then
          tryImprove oracle s2 "education" "GPA/CGPA formatting" original instr_edu_gpa
        else s2
      if flagTruthy d "too_wordy" || flagTruthy d "too_long" then
        tryImprove oracle s3 "education" "Too wordy" original instr_edu_concise
      else s3
  | _ => s

/-- Loop of _process_education over per-item issues. -/
def eduLoop (oracle : Oracle) (items : List PyVal) :
    Nat → GenState → List PyVal → GenState
  | _, s, [] => s
  | idx, s, v :: rest =>
      eduLoop oracle items (idx + 1) (eduStep oracle items s idx v) rest

/-- Embeds _process_education (src/old_generator.py lines 195 to 244). -/
def process_education (oracle : Oracle) (s : GenState)
    (items : List PyVal) (issues : PyVal) : GenState :=
  match issues with
  | PyVal.list il => eduLoop oracle items 0 s il
  | PyVal.dict d =>
    if flagTruthy d "too_generic" || flagTruthy d "too_long" then
      let block := String.intercalate " • " (items.map combine_entry_text)
      if block.isEmpty then s
      else tryImprove oracle s "education" "Section needs standardization" block instr_edu_block
    else s
  | _ => s

/-- Embeds _get_skills_text (src/old_generator.py lines 246 to 257):
flatten skills into one comma-separated string; a list keeps its string
elements, a dict concatenates the string-list values of the fixed keys
technical, tools, languages, frameworks, soft, in that order. -/
def get_skills_text (resume_text : List (String × PyVal)) : String :=
  let skills := dictGet resume_text "skills"
  let flat : List String :=
    match skills with
    | PyVal.list xs => stringsOf xs
    | PyVal.dict d =>
      (["technical", "tools", "languages", "frameworks", "soft"].map (fun k =>
        match dictGet d k with
        | PyVal.list vs => stringsOf vs
        | _ => ([] : List String))).flatten
    | _ => []
  String.intercalate ", " flat

/-- Embeds _process_skills (src/old_generator.py lines 259 to 275):
nothing happens when the flattened skills string is empty; a dict issue
payload with too_generic or missing_proficiency set fires exactly one
oracle attempt, labeled Skills too generic when too_generic is set and
Missing proficiency levels otherwise. -/
def process_skills (oracle : Oracle) (s : GenState)
    (resume_text : List (String × PyVal)) (issues : PyVal) : GenState :=
  let original := get_skills_text resume_text
  if original.isEmpty then s
  else
    match issues with
    | PyVal.dict d =>
      if flagTruthy d "too_generic" || flagTruthy d "missing_proficiency" then
        let issue_text := if flagTruthy d "too_generic" then "Skills too generic"
          else "Missing proficiency levels"
        tryImprove oracle s "skills" issue_text original instr_skills
      else s
    | _ => s

/-- Embeds _process_summary (src/old_generator.py lines 277 to 298): the
original text is the summary field when it is a string, otherwise empty;
three flags fire independently in the fixed order. -/
def process_summary (oracle : Oracle) (s : GenState)
    (resume_text : List (String × PyVal)) (issues : PyVal) : GenState :=
  let original := match dictGet resume_text "summary" with
    | PyVal.str t => t
    | _ => ""
  if original.isEmpty then s
  else
    match issues with
    | PyVal.dict d =>
      let s1 := if flagTruthy d "too_generic" then
          tryImprove oracle s "summary" "Summary too generic" original instr_summary_generic
        else s
      let s2 := if flagTruthy d "too_long" then
          tryImprove oracle s1 "summary" "Summary too long" original instr_summary_concise
        else s1
      if flagTruthy d "missing_keywords" then
        tryImprove oracle s2 "summary" "Missing keywords" original instr_keywords
      else s2
    | _ => s

/-- Embeds generate_resume_improvements (src/old_generator.py lines 303
to 398): the entry point.  The analysis and document mappings are
association lists; an absent or None input is rendered as the empty
mapping, which Python treats identically here since both are falsy and
the guard returns before any other use of the value. -/
def generate_resume_improvements (oracle : Oracle)
    (analysis resume_text : List (String × PyVal)) : GenState :=
  let s0 : GenState := { suggestions := [], calls := [] }
  if analysis.isEmpty || resume_text.isEmpty then s0
  else
    let exp_items := get_items resume_text EXPERIENCE_KEYS
    let exp_issues := get_section_issues analysis EXPERIENCE_KEYS
    let s1 := if !exp_items.isEmpty && !exp_issues.isNone then
        process_experience_like oracle s0 "experience" exp_items exp_issues
      else s0
    let intern_items := get_items resume_text INTERNSHIP_KEYS
    let intern_issues := get_section_issues analysis INTERNSHIP_KEYS
    let s2 := if !intern_items.isEmpty && !intern_issues.isNone then
        process_experience_like oracle s1 "internships" intern_items intern_issues
      else s1
    let edu_items := get_items resume_text EDUCATION_KEYS
    let edu_issues := get_section_issues analysis EDUCATION_KEYS
    let s3 := if !edu_items.isEmpty && !edu_issues.isNone then
        process_education oracle s2 edu_items edu_issues
      else s2
    let awards_items := get_items resume_text AWARDS_KEYS
    let awards_issues := get_section_issues analysis AWARDS_KEYS
    let s4 := if !awards_items.isEmpty && !awards_issues.isNone then
        process_simple_list_section oracle s3 "awards_achievements" awards_items awards_issues gi_awards
      else s3
    let por_items := get_items resume_text POR_KEYS
    let por_issues := get_section_issues analysis POR_KEYS
    let s5 := if !por_items.isEmpty && !por_issues.isNone then
        process_simple_list_section oracle s4 "positions_of_responsibility" por_items por_issues gi_por
      else s4
    let co_items := get_items resume_text CO_CURR_KEYS
    let co_issues := get_section_issues analysis CO_CURR_KEYS
    let s6 := if !co_items.isEmpty && !co_issues.isNone then
        process_simple_list_section oracle s5 "co_curricular" co_items co_issues gi_co_curr
      else s5
    let extra_items := get_items resume_text EXTRA_CURR_KEYS
    let extra_issues := get_section_issues analysis EXTRA_CURR_KEYS
    let s7 := if !extra_items.isEmpty && !extra_issues.isNone then
        process_simple_list_section oracle s6 "extra_curricular" extra_items extra_issues gi_extra_curr
      else s6
    let skills_issues := get_section_issues analysis SKILLS_KEYS
    let s8 := if !skills_issues.isNone then
        process_skills oracle s7 resume_text skills_issues
      else s7
    let summary_issues := get_section_issues analysis SUMMARY_KEYS
    if !summary_issues.isNone then
      process_summary oracle s8 resume_text summary_issues
    else s8

/-- Specification-side order of the oracle attempts of one
experience-like item, following spec section 4.4: flags checked in the
fixed source order, each contributing one attempt, skipped entirely when
the issue entry is not a flag mapping or the flattened text is empty. -/
def expItemSched (sectionLabel : String) (items : List PyVal)
    (idx : Nat) (issue_dict : PyVal) : List Cand :=
  match issue_dict with
  | PyVal.dict d =>
    let original := combine_entry_text (items.getD idx (PyVal.str ""))
    if original.isEmpty then []
    else
      (if flagTruthy d "no_metrics" || flagTruthy d "missing_metrics" then
        [{ sectionLabel := sectionLabel, issue := "No measurable impact",
           original := original, instruction := instr_no_metrics }] else []) ++
      (if flagTruthy d "weak_action_verbs" then
        [{ sectionLabel := sectionLabel, issue := "Weak action verbs",
           original := original, instruction := instr_weak_verbs }] else []) ++
      (if flagTruthy d "responsibility_over_achievement" then
        [{ sectionLabel := sectionLabel, issue := "Not achievement-oriented",
           original := original, instruction := instr_achievement }] else []) ++
      (if flagTruthy d "too_wordy" || flagTruthy d "too_long" then
        [{ sectionLabel := sectionLabel, issue := "Too wordy",
           original := original, instruction := instr_concise_exp }] else []) ++
      (if flagTruthy d "missing_keywords" then
        [{ sectionLabel := sectionLabel, issue := "Missing keywords",
           original := original, instruction := instr_keywords }] else [])
  | _ => []

/-- Specification-side order of an experience-like section: items in
index order, flags within an item in the fixed order. -/
def expSched (sectionLabel : String) (items : List PyVal) :
    Nat → List PyVal → List Cand
  | _, [] => []
  | idx, v :: rest =>
      expItemSched sectionLabel items idx v ++ expSched sectionLabel items (idx + 1) rest

/-- Specification-side order of a whole experience-like section:
non-list issue payloads schedule nothing. -/
def expLikeSched (sectionLabel : String) (items : List PyVal) (issues : PyVal) : List Cand :=
  match issues with
  | PyVal.list il => expSched sectionLabel items 0 il
  | _ => []

/-- Specification-side order of the oracle attempts of one simple-list
item: the two recognized flag groups in order, then the unknown-flag
fallback. -/
def simpleItemSched (sectionLabel generic_instruction : String) (items : List PyVal)
    (idx : Nat) (issue_dict : PyVal) : List Cand :=
  match issue_dict with
  | PyVal.dict d =>
    let original := combine_entry_text (items.getD idx (PyVal.str ""))
    if original.isEmpty then []
    else
      (if flagTruthy d "too_generic" || flagTruthy d "missing_impact" then
        [{ sectionLabel := sectionLabel, issue := "Too generic",
           original := original, instruction := generic_instruction }] else []) ++
      (if flagTruthy d "too_wordy" || flagTruthy d "too_long" then
        [{ sectionLabel := sectionLabel, issue := "Too wordy",
           original := original, instruction := instr_concise_simple }] else []) ++
      (if !((flagTruthy d "too_generic" || flagTruthy d "missing_impact") ||
            (flagTruthy d "too_wordy" || flagTruthy d "too_long")) && !d.isEmpty then
        [{ sectionLabel := sectionLabel, issue := "Improve phrasing",
           original := original, instruction := generic_instruction }] else [])
  | _ => []

/-- Specification-side order of a simple-list section with per-item
issues: items in index order. -/
def simpleSched (sectionLabel generic_instruction : String) (items : List PyVal) :
    Nat → List PyVal → List Cand
  | _, [] => []
  | idx, v :: rest =>
      simpleItemSched sectionLabel generic_instruction items idx v ++
        simpleSched sectionLabel generic_instruction items (idx + 1) rest

/-- Specification-side order of a whole simple-list section, covering
both the per-item and the section-level shapes. -/
def simpleSectionSched (sectionLabel generic_instruction : String)
    (items : List PyVal) (issues : PyVal) : List Cand :=
  match issues with
  | PyVal.list il => simpleSched sectionLabel generic_instruction items 0 il
  | PyVal.dict d =>
    if flagTruthy d "too_generic" || flagTruthy d "too_long" || flagTruthy d "missing_impact" then
      let block := String.intercalate " • " (items.map combine_entry_text)
      if block.isEmpty then []
      else [{ sectionLabel := sectionLabel, issue := "Section too generic",
              original := block, instruction := generic_instruction }]
    else []
  | _ => []

/-- Specification-side order of the oracle attempts of one education
item: the four recognized flag groups in the fixed order. -/
def eduItemSched (items : List PyVal) (idx : Nat) (issue_dict : PyVal) : List Cand :=
  match issue_dict with
  | PyVal.dict d =>
    let original := combine_entry_text (items.getD idx (PyVal.str ""))
    if original.isEmpty then []
    else
      (if flagTruthy d "too_generic" then
        [{ sectionLabel := "education", issue := "Too generic",
           original := original, instruction := instr_edu_generic }] else []) ++
      (if flagTruthy d "missing_dates" then
        [{ sectionLabel := "education", issue := "Missing dates",
           original := original, instruction := instr_edu_dates }] else []) ++
      (if flagTruthy d "missing_gpa" then
        [{ sectionLabel := "education", issue := "GPA/CGPA formatting",
           original := original, instruction := instr_edu_gpa }] else []) ++
      (if flagTruthy d "too_wordy" || flagTruthy d "too_long" then
        [{ sectionLabel := "education", issue := "Too wordy",
           original := original, instruction := instr_edu_concise }] else [])
  | _ => []

/-- Specification-side order of the education section with per-item
issues: items in index order. -/
def eduSched (items : List PyVal) : Nat → List PyVal → List Cand
  | _, [] => []
  | idx, v :: rest => eduItemSched items idx v ++ eduSched items (idx + 1) rest

/-- Specification-side order of the whole education section. -/
def eduSectionSched (items : List PyVal) (issues : PyVal) : List Cand :=
  match issues with
  | PyVal.list il => eduSched items 0 il
  | PyVal.dict d =>
    if flagTruthy d "too_generic" || flagTruthy d "too_long" then
      let block := String.intercalate " • " (items.map combine_entry_text)
      if block.isEmpty then []
      else [{ sectionLabel := "education", issue := "Section needs standardization",
              original := block, instruction := instr_edu_block }]
    else []
  | _ => []

/-- Specification-side order of the skills section: at most one attempt,
labeled with priority to too_generic. -/
def skillsSched (resume_text : List (String × PyVal)) (issues : PyVal) : List Cand :=
  let original := get_skills_text resume_text
  if original.isEmpty then []
  else
    match issues with
    | PyVal.dict d =>
      if flagTruthy d "too_generic" || flagTruthy d "missing_proficiency" then
        [{ sectionLabel := "skills",
           issue := if flagTruthy d "too_generic" then "Skills too generic"
             else "Missing proficiency levels",
           original := original, instruction := instr_skills }]
      else []
    | _ => []

/-- Specification-side order of the summary section: the three flags in
the fixed order. -/
def summarySched (resume_text : List (String × PyVal)) (issues : PyVal) : List Cand :=
  let original := match dictGet resume_text "summary" with
    | PyVal.str t => t
    | _ => ""
  if original.isEmpty then []
  else
    match issues with
    | PyVal.dict d =>
      (if flagTruthy d "too_generic" then
        [{ sectionLabel := "summary", issue := "Summary too generic",
           original := original, instruction := instr_summary_generic }] else []) ++
      (if flagTruthy d "too_long" then
        [{ sectionLabel := "summary", issue := "Summary too long",
           original := original, instruction := instr_summary_concise }] else []) ++
      (if flagTruthy d "missing_keywords" then
        [{ sectionLabel := "summary", issue := "Missing keywords",
           original := original, instruction := instr_keywords }] else [])
    | _ => []

/-- Specification-side guarded schedule of one experience-like section
of the entry point. -/
def expSectionGuarded (analysis resume_text : List (String × PyVal))
    (keys : List String) (sectionLabel : String) : List Cand :=
  if !(get_items resume_text keys).isEmpty &&
      !(get_section_issues analysis keys).isNone then
    expLikeSched sectionLabel (get_items resume_text keys) (get_section_issues analysis keys)
  else []

/-- Specification-side guarded schedule of one simple-list section of
the entry point. -/
def simpleSectionGuarded (analysis resume_text : List (String × PyVal))
    (keys : List String) (sectionLabel generic_instruction : String) : List Cand :=
  if !(get_items resume_text keys).isEmpty &&
      !(get_section_issues analysis keys).isNone then
    simpleSectionSched sectionLabel generic_instruction
      (get_items resume_text keys) (get_section_issues analysis keys)
  else []

/-- Specification-side guarded schedule of the education section of the
entry point. -/
def eduSectionGuarded (analysis resume_text : List (String × PyVal)) : List Cand :=
  if !(get_items resume_text EDUCATION_KEYS).isEmpty &&
      !(get_section_issues analysis EDUCATION_KEYS).isNone then
    eduSectionSched (get_items resume_text EDUCATION_KEYS)
      (get_section_issues analysis EDUCATION_KEYS)
  else []

/-- Specification-side guarded schedule of the skills section of the
entry point. -/
def skillsSectionGuarded (analysis resume_text : List (String × PyVal)) : List Cand :=
  if !(get_section_issues analysis SKILLS_KEYS).isNone then
    skillsSched resume_text (get_section_issues analysis SKILLS_KEYS)
  else []

/-- Specification-side guarded schedule of the summary section of the
entry point. -/
def summarySectionGuarded (analysis resume_text : List (String × PyVal)) : List Cand :=
  if !(get_section_issues analysis SUMMARY_KEYS).isNone then
    summarySched resume_text (get_section_issues analysis SUMMARY_KEYS)
  else []

/-- Specification-side schedule of the whole run, following spec
sections 4.4 and 4.5: sections in the fixed order experience,
internships, education, awards, positions of responsibility,
co-curricular, extra-curricular, skills, summary; within a section items
in index order; within an item flags in the fixed per-handler order. -/
def schedule (analysis resume_text : List (String × PyVal)) : List Cand :=
  if analysis.isEmpty || resume_text.isEmpty then []
  else
    expSectionGuarded analysis resume_text EXPERIENCE_KEYS "experience" ++
    expSectionGuarded analysis resume_text INTERNSHIP_KEYS "internships" ++
    eduSectionGuarded analysis resume_text ++
    simpleSectionGuarded analysis resume_text AWARDS_KEYS "awards_achievements" gi_awards ++
    simpleSectionGuarded analysis resume_text POR_KEYS "positions_of_responsibility" gi_por ++
    simpleSectionGuarded analysis resume_text CO_CURR_KEYS "co_curricular" gi_co_curr ++
    simpleSectionGuarded analysis resume_text EXTRA_CURR_KEYS "extra_curricular" gi_extra_curr ++
    skillsSectionGuarded analysis resume_text ++
    summarySectionGuarded analysis resume_text

/-- Test for a Python list value. -/
def PyVal.isList : PyVal → Bool
  | .list _ => true
  | _ => false

/-- List payload of a Python value, empty for non-lists. -/
def PyVal.toListVal : PyVal → List PyVal
  | .list xs => xs
  | _ => []

/-- Specification-side restatement of the Section Resolver item lookup,
following the words of spec section 4.1: the value under the first alias
whose value is a list, the empty list when no alias carries a list. -/
def get_items_spec (resume : List (String × PyVal)) (keys : List String) : List PyVal :=
  match keys.find? (fun k => (dictGet resume k).isList) with
  | some k => (dictGet resume k).toListVal
  | Option.none => []

/-- Condition under which the Change Filter accepts a candidate rewrite
for an original text, read off the source of _append_if_changed. -/
def accepts (original improved : String) : Bool :=
  !improved.isEmpty &&
    (!(pyLower (pyStrip improved)).isEmpty &&
      pyLower (pyStrip improved) != pyLower (pyStrip (pyOr original "")))

/-- Appending through the Change Filter only ever extends the list: the
result is the input followed by what the filter produces from empty. -/
theorem append_if_changed_frame (out : List ResumeSuggestion) (l i og imp : String) :
    append_if_changed out l i og imp = out ++ append_if_changed [] l i og imp := by
  unfold append_if_changed
  by_cases h1 : imp.isEmpty = true
  · simp [h1]
  · by_cases h2 : (!(pyLower (pyStrip imp)).isEmpty &&
        pyLower (pyStrip imp) != pyLower (pyStrip (pyOr og ""))) = true
    · simp [h1, h2]
    · simp [h1, h2]

/-- Normalizing the Python default `original or ""` is the same as
normalizing the original directly. -/
theorem pyOr_empty_norm (a : String) : pyLower (pyStrip (pyOr a "")) = pyLower (pyStrip a) := by
  unfold pyOr
  by_cases h : a.isEmpty = true
  · rw [(String.isEmpty_iff a).mp h]
    simp
  · simp [h]

/-- Running a concatenation of scheduled attempts is running the two
parts in sequence. -/
theorem runCands_append (o : Oracle) (a b : List Cand) : ∀ s : GenState,
    runCands o s (a ++ b) = runCands o (runCands o s a) b := by
  induction a with
  | nil => intro s; rfl
  | cons c cs ih => intro s; simp only [List.cons_append, runCands]; exact ih _

/-- Characterization of a run of scheduled attempts: the suggestions
grow by the filtered oracle answers in schedule order, and the call
trace grows by the scheduled calls in order. -/
theorem runCands_eq_emit (o : Oracle) : ∀ (cs : List Cand) (s : GenState),
    runCands o s cs =
      { suggestions := s.suggestions ++ emit o s.calls.length cs,
        calls := s.calls ++ cs.map (fun c => (c.original, c.instruction)) }
  | [], s => by simp [runCands, emit]
  | c :: cs, s => by
    rw [runCands, runCands_eq_emit o cs]
    simp [tryImprove, emit, append_if_changed_frame s.suggestions, List.append_assoc,
      Nat.add_comm]

/-- A guarded singleton schedule runs as the guarded single attempt. -/
theorem runCands_ite_singleton (o : Oracle) (s : GenState) (p : Prop) [Decidable p] (c : Cand) :
    runCands o s (if p then [c] else []) =
      (if p then tryImprove o s c.sectionLabel c.issue c.original c.instruction else s) := by
  by_cases h : p <;> simp [h, runCands]

/-- One experience-like loop iteration runs its item schedule. -/
theorem expStep_eq_runCands (o : Oracle) (lbl : String) (items : List PyVal)
    (s : GenState) (idx : Nat) (v : PyVal) :
    expStep o lbl items s idx v = runCands o s (expItemSched lbl items idx v) := by
  cases v with
  | dict d =>
    simp only [expStep, expItemSched]
    split
    · rfl
    · rw [runCands_append, runCands_append, runCands_append, runCands_append,
        runCands_ite_singleton, runCands_ite_singleton, runCands_ite_singleton,
        runCands_ite_singleton, runCands_ite_singleton]
  | none => rfl
  | str s2 => rfl
  | list xs => rfl
  | tuple xs => rfl
  | other b => rfl

/-- The experience-like loop runs its section schedule. -/
theorem expLoop_eq_runCands (o : Oracle) (lbl : String) (items : List PyVal) :
    ∀ (il : List PyVal) (idx : Nat) (s : GenState),
      expLoop o lbl items idx s il = runCands o s (expSched lbl items idx il)
  | [], _, _ => rfl
  | v :: rest, idx, s => by
    rw [expLoop, expSched, runCands_append, ← expStep_eq_runCands]
    exact expLoop_eq_runCands o lbl items rest (idx + 1) _

/-- The experience-like handler runs its schedule. -/
theorem process_experience_like_eq (o : Oracle) (s : GenState) (lbl : String)
    (items : List PyVal) (issues : PyVal) :
    process_experience_like o s lbl items issues = runCands o s (expLikeSched lbl items issues) := by
  cases issues with
  | list il => exact expLoop_eq_runCands o lbl items il 0 s
  | none => rfl
  | str s2 => rfl
  | dict d => rfl
  | tuple xs => rfl
  | other b => rfl

/-- One simple-list loop iteration runs its item schedule. -/
theorem simpleStep_eq_runCands (o : Oracle) (lbl gi : String) (items : List PyVal)
    (s : GenState) (idx : Nat) (v : PyVal) :
    simpleStep o lbl gi items s idx v = runCands o s (simpleItemSched lbl gi items idx v) := by
  cases v with
  | dict d =>
    simp only [simpleStep, simpleItemSched]
    split
    · rfl
    · rw [runCands_append, runCands_append,
        runCands_ite_singleton, runCands_ite_singleton, runCands_ite_singleton]
  | none => rfl
  | str s2 => rfl
  | list xs => rfl
  | tuple xs => rfl
  | other b => rfl

/-- The simple-list per-item loop runs its section schedule. -/
theorem simpleLoop_eq_runCands (o : Oracle) (lbl gi : String) (items : List PyVal) :
    ∀ (il : List PyVal) (idx : Nat) (s : GenState),
      simpleLoop o lbl gi items idx s il = runCands o s (simpleSched lbl gi items idx il)
  | [], _, _ => rfl
  | v :: rest, idx, s => by
    rw [simpleLoop, simpleSched, runCands_append, ← simpleStep_eq_runCands]
    exact simpleLoop_eq_runCands o lbl gi items rest (idx + 1) _

/-- The simple-list handler runs its schedule. -/
theorem process_simple_list_section_eq (o : Oracle) (s : GenState) (lbl : String)
    (items : List PyVal) (issues : PyVal) (gi : String) :
    process_simple_list_section o s lbl items issues gi
      = runCands o s (simpleSectionSched lbl gi items issues) := by
  cases issues with
  | list il => exact simpleLoop_eq_runCands o lbl gi items il 0 s
  | dict d =>
    unfold process_simple_list_section simpleSectionSched
    by_cases h1 : (flagTruthy d "too_generic" || flagTruthy d "too_long" ||
        flagTruthy d "missing_impact") = true
    · by_cases h2 : (String.intercalate " • " (items.map combine_entry_text)).isEmpty = true
      · simp [h1, h2, runCands]
      · simp [h1, h2, runCands]
    · simp [h1, runCands]
  | none => rfl
  | str s2 => rfl
  | tuple xs => rfl
  | other b => rfl

/-- One education loop iteration runs its item schedule. -/
theorem eduStep_eq_runCands (o : Oracle) (items : List PyVal)
    (s : GenState) (idx : Nat) (v : PyVal) :
    eduStep o items s idx v = runCands o s (eduItemSched items idx v) := by
  cases v with
  | dict d =>
    simp only [eduStep, eduItemSched]
    split
    · rfl
    · rw [runCands_append, runCands_append, runCands_append,
        runCands_ite_singleton, runCands_ite_singleton, runCands_ite_singleton,
        runCands_ite_singleton]
  | none => rfl
  | str s2 => rfl
  | list xs => rfl
  | tuple xs => rfl
  | other b => rfl

/-- The education per-item loop runs its section schedule. -/
theorem eduLoop_eq_runCands (o : Oracle) (items : List PyVal) :
    ∀ (il : List PyVal) (idx : Nat) (s : GenState),
      eduLoop o items idx s il = runCands o s (eduSched items idx il)
  | [], _, _ => rfl
  | v :: rest, idx, s => by
    rw [eduLoop, eduSched, runCands_append, ← eduStep_eq_runCands]
    exact eduLoop_eq_runCands o items rest (idx + 1) _

/-- The education handler runs its schedule. -/
theorem process_education_eq (o : Oracle) (s : GenState)
    (items : List PyVal) (issues : PyVal) :
    process_education o s items issues = runCands o s (eduSectionSched items issues) := by
  cases issues with
  | list il => exact eduLoop_eq_runCands o items il 0 s
  | dict d =>
    unfold process_education eduSectionSched
    by_cases h1 : (flagTruthy d "too_generic" || flagTruthy d "too_long") = true
    · by_cases h2 : (String.intercalate " • " (items.map combine_entry_text)).isEmpty = true
      · simp [h1, h2, runCands]
      · simp [h1, h2, runCands]
    · simp [h1, runCands]
  | none => rfl
  | str s2 => rfl
  | tuple xs => rfl
  | other b => rfl

/-- The skills handler runs its schedule. -/
theorem process_skills_eq (o : Oracle) (s : GenState)
    (resume_text : List (String × PyVal)) (issues : PyVal) :
    process_skills o s resume_text issues = runCands o s (skillsSched resume_text issues) := by
  unfold process_skills skillsSched
  by_cases h : (get_skills_text resume_text).isEmpty = true
  · simp [h, runCands]
  · simp only [h, if_false]
    cases issues with
    | dict d =>
      by_cases h1 : (flagTruthy d "too_generic" || flagTruthy d "missing_proficiency") = true
      · simp [h1, runCands]
      · simp [h1, runCands]
    | none => rfl
    | str s2 => rfl
    | list xs => rfl
    | tuple xs => rfl
    | other b => rfl

/-- The summary handler runs its schedule. -/
theorem process_summary_eq (o : Oracle) (s : GenState)
    (resume_text : List (String × PyVal)) (issues : PyVal) :
    process_summary o s resume_text issues = runCands o s (summarySched resume_text issues) := by
  simp only [process_summary, summarySched]
  split
  · rfl
  · cases issues with
    | dict d =>
      rw [runCands_append, runCands_append,
        runCands_ite_singleton, runCands_ite_singleton, runCands_ite_singleton]
    | none => rfl
    | str s2 => rfl
    | list xs => rfl
    | tuple xs => rfl
    | other b => rfl

/-- A guarded experience-like section of the entry point runs its
guarded schedule. -/
theorem runCands_expGuarded (o : Oracle) (s : GenState) (a r : List (String × PyVal))
    (keys : List String) (lbl : String) :
    runCands o s (expSectionGuarded a r keys lbl) =
      (if !(get_items r keys).isEmpty && !(get_section_issues a keys).isNone then
        process_experience_like o s lbl (get_items r keys) (get_section_issues a keys)
      else s) := by
  unfold expSectionGuarded
  split
  · rw [process_experience_like_eq]
  · rfl

/-- A guarded simple-list section of the entry point runs its guarded
schedule. -/
theorem runCands_simpleGuarded (o : Oracle) (s : GenState) (a r : List (String × PyVal))
    (keys : List String) (lbl gi : String) :
    runCands o s (simpleSectionGuarded a r keys lbl gi) =
      (if !(get_items r keys).isEmpty && !(get_section_issues a keys).isNone then
        process_simple_list_section o s lbl (get_items r keys) (get_section_issues a keys) gi
      else s) := by
  unfold simpleSectionGuarded
  split
  · rw [process_simple_list_section_eq]
  · rfl

/-- The guarded education section of the entry point runs its guarded
schedule. -/
theorem runCands_eduGuarded (o : Oracle) (s : GenState) (a r : List (String × PyVal)) :
    runCands o s (eduSectionGuarded a r) =
      (if !(get_items r EDUCATION_KEYS).isEmpty &&
          !(get_section_issues a EDUCATION_KEYS).isNone then
        process_education o s (get_items r EDUCATION_KEYS) (get_section_issues a EDUCATION_KEYS)
      else s) := by
  unfold eduSectionGuarded
  split
  · rw [process_education_eq]
  · rfl

/-- The guarded skills section of the entry point runs its guarded
schedule. -/
theorem runCands_skillsGuarded (o : Oracle) (s : GenState) (a r : List (String × PyVal)) :
    runCands o s (skillsSectionGuarded a r) =
      (if !(get_section_issues a SKILLS_KEYS).isNone then
        process_skills o s r (get_section_issues a SKILLS_KEYS)
      else s) := by
  unfold skillsSectionGuarded
  split
  · rw [process_skills_eq]
  · rfl

/-- The guarded summary section of the entry point runs its guarded
schedule. -/
theorem runCands_summaryGuarded (o : Oracle) (s : GenState) (a r : List (String × PyVal)) :
    runCands o s (summarySectionGuarded a r) =
      (if !(get_section_issues a SUMMARY_KEYS).isNone then
        process_summary o s r (get_section_issues a SUMMARY_KEYS)
      else s) := by
  unfold summarySectionGuarded
  split
  · rw [process_summary_eq]
  · rfl

/-- The entry point runs the schedule from the initial state. -/
theorem generate_eq_runCands (o : Oracle) (a r : List (String × PyVal)) :
    generate_resume_improvements o a r
      = runCands o { suggestions := [], calls := [] } (schedule a r) := by
  unfold generate_resume_improvements schedule
  split
  · rfl
  · rw [runCands_append, runCands_append, runCands_append, runCands_append,
      runCands_append, runCands_append, runCands_append, runCands_append,
      runCands_expGuarded, runCands_expGuarded, runCands_eduGuarded,
      runCands_simpleGuarded, runCands_simpleGuarded, runCands_simpleGuarded,
      runCands_simpleGuarded, runCands_skillsGuarded, runCands_summaryGuarded]

/-- Master decomposition of the entry point: the suggestions are exactly
the filtered oracle answers of the schedule, in schedule order, and the
call trace is exactly the schedule. -/
theorem generate_eq_emit_schedule (o : Oracle) (a r : List (String × PyVal)) :
    generate_resume_improvements o a r =
      { suggestions := emit o 0 (schedule a r),
        calls := (schedule a r).map (fun c => (c.original, c.instruction)) } := by
  rw [generate_eq_runCands, runCands_eq_emit]
  simp

/-- Membership in a guarded singleton schedule forces equality. -/
theorem eq_of_mem_ite_singleton (c x : Cand) (p : Prop) [Decidable p]
    (h : c ∈ (if p then [x] else [])) : c = x := by
  by_cases hp : p
  · simpa [hp] using h
  · simp [hp] at h

/-- Everything the Change Filter emits from an empty list is the one
suggestion built from its arguments, and the acceptance conditions of
the source hold for it. -/
theorem append_if_changed_nil_mem (l i og imp : String) (g : ResumeSuggestion)
    (hg : g ∈ append_if_changed [] l i og imp) :
    g = { sectionLabel := l, issue := i, original_text := og, improved_text := imp } ∧
      imp.isEmpty = false ∧ (pyLower (pyStrip imp)).isEmpty = false ∧
      pyLower (pyStrip imp) ≠ pyLower (pyStrip og) := by
  simp only [append_if_changed] at hg
  split at hg
  next h1 => simp at hg
  next h1 =>
    split at hg
    next h2 =>
      rw [pyOr_empty_norm] at h2
      rw [Bool.and_eq_true] at h2
      simp only [List.nil_append, List.mem_singleton] at hg
      refine ⟨hg, ?_, ?_, ?_⟩
      · simpa using h1
      · simpa using h2.1
      · simpa using h2.2
    next h2 => simp at hg

/-- Every suggestion a schedule emits comes from one of its scheduled
attempts through the Change Filter. -/
theorem emit_mem (o : Oracle) : ∀ (cs : List Cand) (n : Nat) (g : ResumeSuggestion),
    g ∈ emit o n cs →
    ∃ c ∈ cs, ∃ k, g ∈ append_if_changed [] c.sectionLabel c.issue c.original
      (o k c.original c.instruction)
  | [], n, g, hg => by simp [emit] at hg
  | c :: cs, n, g, hg => by
    rw [emit] at hg
    rcases List.mem_append.mp hg with h | h
    · exact ⟨c, List.mem_cons_self c cs, n, h⟩
    · obtain ⟨c2, hc2, k, hk⟩ := emit_mem o cs (n + 1) g h
      exact ⟨c2, List.mem_cons_of_mem c hc2, k, hk⟩

/-- Scheduled experience-like attempts carry non-empty flattened text. -/
theorem expItemSched_original_ne (lbl : String) (items : List PyVal) (idx : Nat) (v : PyVal)
    (c : Cand) (hc : c ∈ expItemSched lbl items idx v) : c.original.isEmpty = false := by
  cases v with
  | dict d =>
    simp only [expItemSched] at hc
    split at hc
    next h => simp at hc
    next h =>
      simp only [List.mem_append] at hc
      rcases hc with ((((h1 | h1) | h1) | h1) | h1) <;>
        (rw [eq_of_mem_ite_singleton _ _ _ h1]; simpa using h)
  | none => simp [expItemSched] at hc
  | str s2 => simp [expItemSched] at hc
  | list xs => simp [expItemSched] at hc
  | tuple xs => simp [expItemSched] at hc
  | other b => simp [expItemSched] at hc

/-- Scheduled experience-like sections carry non-empty flattened text. -/
theorem expSched_original_ne (lbl : String) (items : List PyVal) :
    ∀ (il : List PyVal) (idx : Nat) (c : Cand),
      c ∈ expSched lbl items idx il → c.original.isEmpty = false
  | [], _, c, hc => by simp [expSched] at hc
  | v :: rest, idx, c, hc => by
    rw [expSched] at hc
    rcases List.mem_append.mp hc with h | h
    · exact expItemSched_original_ne lbl items idx v c h
    · exact expSched_original_ne lbl items rest (idx + 1) c h

/-- Scheduled experience-like handler runs carry non-empty text. -/
theorem expLikeSched_original_ne (lbl : String) (items : List PyVal) (issues : PyVal)
    (c : Cand) (hc : c ∈ expLikeSched lbl items issues) : c.original.isEmpty = false := by
  cases issues with
  | list il => exact expSched_original_ne lbl items il 0 c hc
  | none => simp [expLikeSched] at hc
  | str s2 => simp [expLikeSched] at hc
  | dict d => simp [expLikeSched] at hc
  | tuple xs => simp [expLikeSched] at hc
  | other b => simp [expLikeSched] at hc

/-- Scheduled simple-list attempts carry non-empty flattened text. -/
theorem simpleItemSched_original_ne (lbl gi : String) (items : List PyVal) (idx : Nat)
    (v : PyVal) (c : Cand) (hc : c ∈ simpleItemSched lbl gi items idx v) :
    c.original.isEmpty = false := by
  cases v with
  | dict d =>
    simp only [simpleItemSched] at hc
    split at hc
    next h => simp at hc
    next h =>
      simp only [List.mem_append] at hc
      rcases hc with ((h1 | h1) | h1) <;>
        (rw [eq_of_mem_ite_singleton _ _ _ h1]; simpa using h)
  | none => simp [simpleItemSched] at hc
  | str s2 => simp [simpleItemSched] at hc
  | list xs => simp [simpleItemSched] at hc
  | tuple xs => simp [simpleItemSched] at hc
  | other b => simp [simpleItemSched] at hc

/-- Scheduled simple-list per-item runs carry non-empty text. -/
theorem simpleSched_original_ne (lbl gi : String) (items : List PyVal) :
    ∀ (il : List PyVal) (idx : Nat) (c : Cand),
      c ∈ simpleSched lbl gi items idx il → c.original.isEmpty = false
  | [], _, c, hc => by simp [simpleSched] at hc
  | v :: rest, idx, c, hc => by
    rw [simpleSched] at hc
    rcases List.mem_append.mp hc with h | h
    · exact simpleItemSched_original_ne lbl gi items idx v c h
    · exact simpleSched_original_ne lbl gi items rest (idx + 1) c h

/-- Scheduled simple-list sections carry non-empty text. -/
theorem simpleSectionSched_original_ne (lbl gi : String) (items : List PyVal) (issues : PyVal)
    (c : Cand) (hc : c ∈ simpleSectionSched lbl gi items issues) :
    c.original.isEmpty = false := by
  cases issues with
  | list il => exact simpleSched_original_ne lbl gi items il 0 c hc
  | dict d =>
    simp only [simpleSectionSched] at hc
    split at hc
    next h1 =>
      split at hc
      next h2 => simp at hc
      next h2 =>
        simp only [List.mem_singleton] at hc
        subst hc
        simpa using h2
    next h1 => simp at hc
  | none => simp [simpleSectionSched] at hc
  | str s2 => simp [simpleSectionSched] at hc
  | tuple xs => simp [simpleSectionSched] at hc
  | other b => simp [simpleSectionSched] at hc

/-- Scheduled education attempts carry non-empty flattened text. -/
theorem eduItemSched_original_ne (items : List PyVal) (idx : Nat) (v : PyVal)
    (c : Cand) (hc : c ∈ eduItemSched items idx v) : c.original.isEmpty = false := by
  cases v with
  | dict d =>
    simp only [eduItemSched] at hc
    split at hc
    next h => simp at hc
    next h =>
      simp only [List.mem_append] at hc
      rcases hc with (((h1 | h1) | h1) | h1) <;>
        (rw [eq_of_mem_ite_singleton _ _ _ h1]; simpa using h)
  | none => simp [eduItemSched] at hc
  | str s2 => simp [eduItemSched] at hc
  | list xs => simp [eduItemSched] at hc
  | tuple xs => simp [eduItemSched] at hc
  | other b => simp [eduItemSched] at hc

/-- Scheduled education per-item runs carry non-empty text. -/
theorem eduSched_original_ne (items : List PyVal) :
    ∀ (il : List PyVal) (idx : Nat) (c : Cand),
      c ∈ eduSched items idx il → c.original.isEmpty = false
  | [], _, c, hc => by simp [eduSched] at hc
  | v :: rest, idx, c, hc => by
    rw [eduSched] at hc
    rcases List.mem_append.mp hc with h | h
    · exact eduItemSched_original_ne items idx v c h
    · exact eduSched_original_ne items rest (idx + 1) c h

/-- Scheduled education sections carry non-empty text. -/
theorem eduSectionSched_original_ne (items : List PyVal) (issues : PyVal)
    (c : Cand) (hc : c ∈ eduSectionSched items issues) : c.original.isEmpty = false := by
  cases issues with
  | list il => exact eduSched_original_ne items il 0 c hc
  | dict d =>
    simp only [eduSectionSched] at hc
    split at hc
    next h1 =>
      split at hc
      next h2 => simp at hc
      next h2 =>
        simp only [List.mem_singleton] at hc
        subst hc
        simpa using h2
    next h1 => simp at hc
  | none => simp [eduSectionSched] at hc
  | str s2 => simp [eduSectionSched] at hc
  | tuple xs => simp [eduSectionSched] at hc
  | other b => simp [eduSectionSched] at hc

/-- Scheduled skills attempts carry non-empty flattened text. -/
theorem skillsSched_original_ne (r : List (String × PyVal)) (issues : PyVal)
    (c : Cand) (hc : c ∈ skillsSched r issues) : c.original.isEmpty = false := by
  cases issues with
  | dict d =>
    simp only [skillsSched] at hc
    split at hc
    next h => simp at hc
    next h =>
      split at hc
      next h1 =>
        simp only [List.mem_singleton] at hc
        subst hc
        simpa using h
      next h1 => simp at hc
  | none => simp [skillsSched] at hc
  | str s2 => simp [skillsSched] at hc
  | list xs => simp [skillsSched] at hc
  | tuple xs => simp [skillsSched] at hc
  | other b => simp [skillsSched] at hc

/-- Scheduled summary attempts carry non-empty original text. -/
theorem summarySched_original_ne (r : List (String × PyVal)) (issues : PyVal)
    (c : Cand) (hc : c ∈ summarySched r issues) : c.original.isEmpty = false := by
  cases issues with
  | dict d =>
    simp only [summarySched] at hc
    split at hc
    next h => simp at hc
    next h =>
      simp only [List.mem_append] at hc
      rcases hc with ((h1 | h1) | h1) <;>
        (rw [eq_of_mem_ite_singleton _ _ _ h1]; simpa using h)
  | none => simp [summarySched] at hc
  | str s2 => simp [summarySched] at hc
  | list xs => simp [summarySched] at hc
  | tuple xs => simp [summarySched] at hc
  | other b => simp [summarySched] at hc

/-- Guarded experience-like schedules carry non-empty text. -/
theorem expSectionGuarded_original_ne (a r : List (String × PyVal)) (keys : List String)
    (lbl : String) (c : Cand) (hc : c ∈ expSectionGuarded a r keys lbl) :
    c.original.isEmpty = false := by
  simp only [expSectionGuarded] at hc
  split at hc
  · exact expLikeSched_original_ne _ _ _ c hc
  · simp at hc

/-- Guarded simple-list schedules carry non-empty text. -/
theorem simpleSectionGuarded_original_ne (a r : List (String × PyVal)) (keys : List String)
    (lbl gi : String) (c : Cand) (hc : c ∈ simpleSectionGuarded a r keys lbl gi) :
    c.original.isEmpty = false := by
  simp only [simpleSectionGuarded] at hc
  split at hc
  · exact simpleSectionSched_original_ne _ _ _ _ c hc
  · simp at hc

/-- The guarded education schedule carries non-empty text. -/
theorem eduSectionGuarded_original_ne (a r : List (String × PyVal)) (c : Cand)
    (hc : c ∈ eduSectionGuarded a r) : c.original.isEmpty = false := by
  simp only [eduSectionGuarded] at hc
  split at hc
  · exact eduSectionSched_original_ne _ _ c hc
  · simp at hc

/-- The guarded skills schedule carries non-empty text. -/
theorem skillsSectionGuarded_original_ne (a r : List (String × PyVal)) (c : Cand)
    (hc : c ∈ skillsSectionGuarded a r) : c.original.isEmpty = false := by
  simp only [skillsSectionGuarded] at hc
  split at hc
  · exact skillsSched_original_ne _ _ c hc
  · simp at hc

/-- The guarded summary schedule carries non-empty text. -/
theorem summarySectionGuarded_original_ne (a r : List (String × PyVal)) (c : Cand)
    (hc : c ∈ summarySectionGuarded a r) : c.original.isEmpty = false := by
  simp only [summarySectionGuarded] at hc
  split at hc
  · exact summarySched_original_ne _ _ c hc
  · simp at hc

/-- Every attempt of the whole schedule carries non-empty original
text: each sched guard filters empty flattened text out. -/
theorem schedule_original_ne (a r : List (String × PyVal)) (c : Cand)
    (hc : c ∈ schedule a r) : c.original.isEmpty = false := by
  simp only [schedule] at hc
  split at hc
  next h => simp at hc
  next h =>
    simp only [List.mem_append] at hc
    rcases hc with ((((((((hc | hc) | hc) | hc) | hc) | hc) | hc) | hc) | hc)
    · exact expSectionGuarded_original_ne _ _ _ _ c hc
    · exact expSectionGuarded_original_ne _ _ _ _ c hc
    · exact eduSectionGuarded_original_ne _ _ c hc
    · exact simpleSectionGuarded_original_ne _ _ _ _ _ c hc
    · exact simpleSectionGuarded_original_ne _ _ _ _ _ c hc
    · exact simpleSectionGuarded_original_ne _ _ _ _ _ c hc
    · exact simpleSectionGuarded_original_ne _ _ _ _ _ c hc
    · exact skillsSectionGuarded_original_ne _ _ c hc
    · exact summarySectionGuarded_original_ne _ _ c hc

/-- The Change Filter appends exactly the built suggestion when the
acceptance condition holds. -/
theorem append_if_changed_accepts (out : List ResumeSuggestion) (l i og imp : String)
    (h : accepts og imp = true) :
    append_if_changed out l i og imp
      = out ++ [{ sectionLabel := l, issue := i, original_text := og, improved_text := imp }] := by
  simp only [accepts, Bool.and_eq_true] at h
  simp only [append_if_changed]
  split
  next h1 => simp_all
  next h1 =>
    split
    next h2 => rfl
    next h2 => simp_all

/-- Flattening an out-of-range item access gives the empty string: the
Python fallback is the empty string literal. -/
theorem combine_getD_out_of_range (items : List PyVal) (idx : Nat) (h : items.length ≤ idx) :
    combine_entry_text (items.getD idx (PyVal.str "")) = "" := by
  rw [List.getD_eq_default _ _ h]
  rfl

/-- An out-of-range experience-like issue entry schedules nothing. -/
theorem expItemSched_out_of_range (lbl : String) (items : List PyVal) (idx : Nat) (v : PyVal)
    (h : items.length ≤ idx) : expItemSched lbl items idx v = [] := by
  cases v with
  | dict d =>
    simp only [expItemSched]
    rw [combine_getD_out_of_range items idx h]
    rfl
  | none => rfl
  | str s2 => rfl
  | list xs => rfl
  | tuple xs => rfl
  | other b => rfl

/-- An out-of-range simple-list issue entry schedules nothing. -/
theorem simpleItemSched_out_of_range (lbl gi : String) (items : List PyVal) (idx : Nat)
    (v : PyVal) (h : items.length ≤ idx) : simpleItemSched lbl gi items idx v = [] := by
  cases v with
  | dict d =>
    simp only [simpleItemSched]
    rw [combine_getD_out_of_range items idx h]
    rfl
  | none => rfl
  | str s2 => rfl
  | list xs => rfl
  | tuple xs => rfl
  | other b => rfl

/-- Replacing an out-of-range issue entry by None leaves the
experience-like schedule unchanged. -/
theorem expSched_set_out_of_range (lbl : String) (items : List PyVal) :
    ∀ (il : List PyVal) (n idx : Nat), items.length ≤ n + idx →
      expSched lbl items n (il.set idx PyVal.none) = expSched lbl items n il
  | [], n, idx, _ => by cases idx <;> rfl
  | v :: rest, n, 0, h => by
    simp only [List.set]
    rw [expSched, expSched, expItemSched_out_of_range lbl items n PyVal.none (by omega),
      expItemSched_out_of_range lbl items n v (by omega)]
  | v :: rest, n, idx + 1, h => by
    simp only [List.set]
    rw [expSched, expSched, expSched_set_out_of_range lbl items rest (n + 1) idx (by omega)]

/-- Replacing an out-of-range issue entry by None leaves the simple-list
schedule unchanged. -/
theorem simpleSched_set_out_of_range (lbl gi : String) (items : List PyVal) :
    ∀ (il : List PyVal) (n idx : Nat), items.length ≤ n + idx →
      simpleSched lbl gi items n (il.set idx PyVal.none) = simpleSched lbl gi items n il
  | [], n, idx, _ => by cases idx <;> rfl
  | v :: rest, n, 0, h => by
    simp only [List.set]
    rw [simpleSched, simpleSched, simpleItemSched_out_of_range lbl gi items n PyVal.none (by omega),
      simpleItemSched_out_of_range lbl gi items n v (by omega)]
  | v :: rest, n, idx + 1, h => by
    simp only [List.set]
    rw [simpleSched, simpleSched, simpleSched_set_out_of_range lbl gi items rest (n + 1) idx (by omega)]

/-- C1: Change Filter decision rule of _append_if_changed: for every
original X and candidate Y the filter leaves the list unchanged exactly
when the trimmed lowercased Y is empty (covering empty or falsy Y and
whitespace-only Y) or equals the trimmed lowercased X (covering
filter(X, X) under any casing or whitespace, with a missing original
normalizing like the empty string); otherwise it appends exactly one
suggestion carrying the unnormalized X and Y. -/
theorem change_filter_decision (out : List ResumeSuggestion) (sec iss X Y : String) :
    append_if_changed out sec iss X Y =
      (if (pyLower (pyStrip Y)).isEmpty || pyLower (pyStrip Y) == pyLower (pyStrip X) then out
       else out ++ [{ sectionLabel := sec, issue := iss,
                      original_text := X, improved_text := Y }]) := by
  simp only [append_if_changed, pyOr_empty_norm]
  by_cases hY : Y.isEmpty = true
  · rw [(String.isEmpty_iff Y).mp hY]
    simp [show ("" : String).isEmpty = true from rfl,
      show (pyLower (pyStrip "")).isEmpty = true from rfl]
  · by_cases h2 : (pyLower (pyStrip Y)).isEmpty = true
    · simp [hY, h2]
    · by_cases h3 : pyLower (pyStrip Y) = pyLower (pyStrip X)
      · simp [hY, h2, h3]
      · simp [hY, h2, h3]

/-- C2: Output invariant of generate_resume_improvements: for any
oracle behaviour and any inputs, every emitted suggestion has non-empty
improved text whose trimmed lowercased form differs from the trimmed
lowercased original text, and non-empty original text, because every
oracle call site passes a non-empty flattened original. -/
theorem generate_output_invariant (o : Oracle) (analysis resume_text : List (String × PyVal))
    (g : ResumeSuggestion)
    (hg : g ∈ (generate_resume_improvements o analysis resume_text).suggestions) :
    g.improved_text.isEmpty = false ∧
      pyLower (pyStrip g.improved_text) ≠ pyLower (pyStrip g.original_text) ∧
      g.original_text.isEmpty = false := by
  rw [generate_eq_emit_schedule] at hg
  obtain ⟨c, hc, k, hk⟩ := emit_mem o (schedule analysis resume_text) 0 g hg
  obtain ⟨hgeq, h1, _, h3⟩ := append_if_changed_nil_mem _ _ _ _ g hk
  subst hgeq
  exact ⟨h1, h3, schedule_original_ne analysis resume_text c hc⟩

/-- C2 witness: a concrete run producing one suggestion to which the
invariant applies. -/
theorem generate_output_invariant_witness :
    ({ sectionLabel := "summary", issue := "Summary too generic",
       original_text := "Hello", improved_text := "World" } : ResumeSuggestion) ∈
      (generate_resume_improvements (fun _ _ _ => "World")
        [("summary", PyVal.dict [("too_generic", PyVal.other true)])]
        [("summary", PyVal.str "Hello")]).suggestions ∧
    (("World" : String).isEmpty = false ∧
      pyLower (pyStrip "World") ≠ pyLower (pyStrip "Hello") ∧
      ("Hello" : String).isEmpty = false) := by
  refine ⟨by decide, ?_⟩
  exact generate_output_invariant (fun _ _ _ => "World")
    [("summary", PyVal.dict [("too_generic", PyVal.other true)])]
    [("summary", PyVal.str "Hello")]
    { sectionLabel := "summary", issue := "Summary too generic",
      original_text := "Hello", improved_text := "World" } (by decide)

/-- C3: Empty-input guard of generate_resume_improvements: when either
mapping is empty (the falsy None input behaves identically, the guard
firing before any other use of the value), the result is the empty
suggestion list with no oracle calls, and the function is total. -/
theorem generate_empty_input_guard (o : Oracle) (analysis resume_text : List (String × PyVal))
    (h : analysis = [] ∨ resume_text = []) :
    generate_resume_improvements o analysis resume_text
      = { suggestions := [], calls := [] } := by
  unfold generate_resume_improvements
  rcases h with h | h <;> subst h <;> simp

/-- C3 witness: a concrete empty analysis against a non-empty document. -/
theorem generate_empty_input_guard_witness :
    generate_resume_improvements (fun _ _ _ => "Z") []
        [("summary", PyVal.str "hi")]
      = { suggestions := [], calls := [] } :=
  generate_empty_input_guard (fun _ _ _ => "Z") [] [("summary", PyVal.str "hi")] (Or.inl rfl)

/-- C4 counterexample: the claim that a mapping whose description field
holds the string X always flattens to X fails, because the source
returns the stripped value: a description with surrounding whitespace is
returned trimmed. -/
theorem entry_flattener_description_cex :
    combine_entry_text (PyVal.dict [("description", PyVal.str " A ")]) ≠ " A " := by
  decide

/-- C4 amended: the Entry Flattener is total by construction, and for
every mapping item whose description field holds a string X that is
non-empty after trimming, it returns the trimmed X regardless of the
other fields; a blank or missing description instead falls through to
the other fields. -/
theorem entry_flattener_description_trim (entries : List (String × PyVal)) (X : String)
    (hd : dictGet entries "description" = PyVal.str X) (hX : (pyStrip X).isEmpty = false) :
    combine_entry_text (PyVal.dict entries) = pyStrip X := by
  simp [combine_entry_text, firstNonBlankField, hd, hX]

/-- C4 witness: a concrete mapping with a clean description field among
other fields. -/
theorem entry_flattener_description_trim_witness :
    dictGet [("description", PyVal.str "BS CS, MIT"), ("note", PyVal.str "z")] "description"
        = PyVal.str "BS CS, MIT" ∧
    (pyStrip "BS CS, MIT").isEmpty = false ∧
    combine_entry_text
        (PyVal.dict [("description", PyVal.str "BS CS, MIT"), ("note", PyVal.str "z")])
      = pyStrip "BS CS, MIT" := by
  refine ⟨rfl, by decide, ?_⟩
  exact entry_flattener_description_trim
    [("description", PyVal.str "BS CS, MIT"), ("note", PyVal.str "z")] "BS CS, MIT" rfl (by decide)

/-- C5: Section Resolver item lookup of _get_items agrees everywhere
with the specification reading: the value under the first alias whose
value is a list, a present non-list alias not stopping the search, and
the empty list when no alias carries one; in particular with both
experience and work_experience populated as lists the experience list
wins. -/
theorem section_resolver_first_list_alias :
    (∀ (resume : List (String × PyVal)) (keys : List String),
        get_items resume keys = get_items_spec resume keys) ∧
    get_items
        [("experience", PyVal.list [PyVal.str "E1"]),
         ("work_experience", PyVal.list [PyVal.str "W1"])] EXPERIENCE_KEYS
      = [PyVal.str "E1"] := by
  constructor
  · intro resume keys
    induction keys with
    | nil => rfl
    | cons k rest ih =>
      cases h : dictGet resume k with
      | list xs =>
        simp [get_items, get_items_spec, List.find?_cons, h, PyVal.isList, PyVal.toListVal]
      | none =>
        rw [show get_items resume (k :: rest) = get_items resume rest from by rw [get_items, h],
          ih]
        unfold get_items_spec
        rw [List.find?_cons, h]
        rfl
      | str s2 =>
        rw [show get_items resume (k :: rest) = get_items resume rest from by rw [get_items, h],
          ih]
        unfold get_items_spec
        rw [List.find?_cons, h]
        rfl
      | dict es =>
        rw [show get_items resume (k :: rest) = get_items resume rest from by rw [get_items, h],
          ih]
        unfold get_items_spec
        rw [List.find?_cons, h]
        rfl
      | tuple xs =>
        rw [show get_items resume (k :: rest) = get_items resume rest from by rw [get_items, h],
          ih]
        unfold get_items_spec
        rw [List.find?_cons, h]
        rfl
      | other b =>
        rw [show get_items resume (k :: rest) = get_items resume rest from by rw [get_items, h],
          ih]
        unfold get_items_spec
        rw [List.find?_cons, h]
        rfl
  · rfl

/-- C6: Global output ordering of generate_resume_improvements: the
suggestions are the filtered oracle answers of the schedule, whose
definition lists the sections in the fixed order experience,
internships, education, awards, positions of responsibility,
co-curricular, extra-curricular, skills, summary, items within a section
in index order, and flags within an item in the fixed per-handler order;
the call trace likewise follows the schedule. -/
theorem generate_global_ordering (o : Oracle) (analysis resume_text : List (String × PyVal)) :
    (generate_resume_improvements o analysis resume_text).suggestions
        = emit o 0 (schedule analysis resume_text) ∧
    (generate_resume_improvements o analysis resume_text).calls
        = (schedule analysis resume_text).map (fun c => (c.original, c.instruction)) := by
  rw [generate_eq_emit_schedule]
  exact ⟨rfl, rfl⟩

/-- C7: Multi-flag independence in _process_experience_like: an
experience-like item whose flag mapping has no_metrics and
weak_action_verbs truthy and the remaining recognized flags falsy, with
non-empty flattened text, triggers exactly two oracle calls against the
same original, and when the filter accepts both answers exactly two
suggestions are produced, labeled No measurable impact and Weak action
verbs, sharing the original text; the flags are never merged into one
rewrite. -/
theorem experience_multi_flag_independence (o : Oracle) (lbl : String) (item : PyVal)
    (d : List (String × PyVal))
    (h1 : flagTruthy d "no_metrics" = true)
    (h2 : flagTruthy d "weak_action_verbs" = true)
    (h3 : flagTruthy d "responsibility_over_achievement" = false)
    (h4 : flagTruthy d "too_wordy" = false)
    (h5 : flagTruthy d "too_long" = false)
    (h6 : flagTruthy d "missing_keywords" = false)
    (horig : (combine_entry_text item).isEmpty = false) :
    (process_experience_like o { suggestions := [], calls := [] } lbl [item]
        (PyVal.list [PyVal.dict d])).calls =
      [(combine_entry_text item, instr_no_metrics),
       (combine_entry_text item, instr_weak_verbs)] ∧
    (accepts (combine_entry_text item) (o 0 (combine_entry_text item) instr_no_metrics) = true →
     accepts (combine_entry_text item) (o 1 (combine_entry_text item) instr_weak_verbs) = true →
     (process_experience_like o { suggestions := [], calls := [] } lbl [item]
         (PyVal.list [PyVal.dict d])).suggestions =
       [{ sectionLabel := lbl, issue := "No measurable impact",
          original_text := combine_entry_text item,
          improved_text := o 0 (combine_entry_text item) instr_no_metrics },
        { sectionLabel := lbl, issue := "Weak action verbs",
          original_text := combine_entry_text item,
          improved_text := o 1 (combine_entry_text item) instr_weak_verbs }]) := by
  constructor
  · simp [process_experience_like, expLoop, expStep, tryImprove,
      h1, h2, h3, h4, h5, h6, horig]
  · intro ha hb
    simp only [process_experience_like, expLoop, expStep, tryImprove, List.getD_cons_zero,
      h1, h2, h3, h4, h5, h6, horig, Bool.true_or, Bool.or_self, Bool.false_or, if_true,
      Bool.false_eq_true, if_false, List.length_nil, List.nil_append, List.length_cons,
      List.length_singleton, Nat.zero_add]
    rw [append_if_changed_accepts _ lbl "Weak action verbs" (combine_entry_text item)
        (o 1 (combine_entry_text item) instr_weak_verbs) hb,
      append_if_changed_accepts [] lbl "No measurable impact" (combine_entry_text item)
        (o 0 (combine_entry_text item) instr_no_metrics) ha]
    simp

/-- C7 witness: a concrete item with both flags and an oracle whose two
answers the filter accepts. -/
theorem experience_multi_flag_independence_witness :
    (process_experience_like
        (fun n _ _ => if n == 0 then "Led team of 10" else "Spearheaded launch")
        { suggestions := [], calls := [] } "experience" [PyVal.str "Managed team"]
        (PyVal.list [PyVal.dict
          [("no_metrics", PyVal.other true), ("weak_action_verbs", PyVal.other true)]])).calls =
      [("Managed team", instr_no_metrics), ("Managed team", instr_weak_verbs)] ∧
    (process_experience_like
        (fun n _ _ => if n == 0 then "Led team of 10" else "Spearheaded launch")
        { suggestions := [], calls := [] } "experience" [PyVal.str "Managed team"]
        (PyVal.list [PyVal.dict
          [("no_metrics", PyVal.other true), ("weak_action_verbs", PyVal.other true)]])).suggestions =
      [{ sectionLabel := "experience", issue := "No measurable impact",
         original_text := "Managed team", improved_text := "Led team of 10" },
       { sectionLabel := "experience", issue := "Weak action verbs",
         original_text := "Managed team", improved_text := "Spearheaded launch" }] := by
  have h := experience_multi_flag_independence
    (fun n _ _ => if n == 0 then "Led team of 10" else "Spearheaded launch")
    "experience" (PyVal.str "Managed team")
    [("no_metrics", PyVal.other true), ("weak_action_verbs", PyVal.other true)]
    (by decide) (by decide) (by decide) (by decide) (by decide) (by decide) (by decide)
  exact ⟨h.1, h.2 (by decide) (by decide)⟩

/-- C8: Unknown-flag fallback asymmetry: a simple-list item whose
non-empty flag mapping has none of the recognized flags truthy gets
exactly one generic-polish oracle call and its only possible suggestion
is labeled Improve phrasing, while an experience-like item whose flag
mapping has none of its recognized flags truthy produces no oracle call
and no suggestion at all. -/
theorem unknown_flag_fallback_asymmetry (o : Oracle) (lblS lblE gi : String) (item : PyVal)
    (d : List (String × PyVal))
    (hne : d.isEmpty = false)
    (hg : flagTruthy d "too_generic" = false)
    (hmi : flagTruthy d "missing_impact" = false)
    (hw : flagTruthy d "too_wordy" = false)
    (hl : flagTruthy d "too_long" = false)
    (h1 : flagTruthy d "no_metrics" = false)
    (h2 : flagTruthy d "missing_metrics" = false)
    (h3 : flagTruthy d "weak_action_verbs" = false)
    (h4 : flagTruthy d "responsibility_over_achievement" = false)
    (h5 : flagTruthy d "missing_keywords" = false)
    (horig : (combine_entry_text item).isEmpty = false) :
    (process_simple_list_section o { suggestions := [], calls := [] } lblS [item]
        (PyVal.list [PyVal.dict d]) gi).calls = [(combine_entry_text item, gi)] ∧
    (process_simple_list_section o { suggestions := [], calls := [] } lblS [item]
        (PyVal.list [PyVal.dict d]) gi).suggestions =
      append_if_changed [] lblS "Improve phrasing" (combine_entry_text item)
        (o 0 (combine_entry_text item) gi) ∧
    process_experience_like o { suggestions := [], calls := [] } lblE [item]
        (PyVal.list [PyVal.dict d]) = { suggestions := [], calls := [] } := by
  refine ⟨?_, ?_, ?_⟩
  · simp [process_simple_list_section, simpleLoop, simpleStep, tryImprove,
      hne, hg, hmi, hw, hl, horig]
  · simp [process_simple_list_section, simpleLoop, simpleStep, tryImprove,
      hne, hg, hmi, hw, hl, horig]
  · simp [process_experience_like, expLoop, expStep,
      h1, h2, h3, h4, hw, hl, h5, horig]

/-- C8 witness: a concrete item carrying only an unrecognized flag. -/
theorem unknown_flag_fallback_asymmetry_witness :
    (process_simple_list_section (fun _ _ _ => "Polished bullet")
        { suggestions := [], calls := [] } "awards_achievements" [PyVal.str "Won prize"]
        (PyVal.list [PyVal.dict [("strange_flag", PyVal.other true)]]) gi_awards).calls =
      [("Won prize", gi_awards)] ∧
    (process_simple_list_section (fun _ _ _ => "Polished bullet")
        { suggestions := [], calls := [] } "awards_achievements" [PyVal.str "Won prize"]
        (PyVal.list [PyVal.dict [("strange_flag", PyVal.other true)]]) gi_awards).suggestions =
      append_if_changed [] "awards_achievements" "Improve phrasing" "Won prize"
        ((fun _ _ _ => "Polished bullet") 0 "Won prize" gi_awards) ∧
    process_experience_like (fun _ _ _ => "Polished bullet")
        { suggestions := [], calls := [] } "experience" [PyVal.str "Won prize"]
        (PyVal.list [PyVal.dict [("strange_flag", PyVal.other true)]]) =
      { suggestions := [], calls := [] } :=
  unknown_flag_fallback_asymmetry (fun _ _ _ => "Polished bullet")
    "awards_achievements" "experience" gi_awards (PyVal.str "Won prize")
    [("strange_flag", PyVal.other true)]
    (by decide) (by decide) (by decide) (by decide) (by decide) (by decide) (by decide)
    (by decide) (by decide) (by decide) (by decide)

/-- C9: Skills handler: with a dict issue payload having too_generic or
missing_proficiency truthy and a non-empty flattened skills string,
exactly one oracle call is made and the suggestion attempt is labeled
Skills too generic when too_generic is truthy (priority over
missing_proficiency) and Missing proficiency levels otherwise; with an
empty flattened skills string nothing happens at all. -/
theorem skills_handler_single_call (o : Oracle) (r : List (String × PyVal))
    (d : List (String × PyVal)) :
    ((get_skills_text r).isEmpty = false →
      (flagTruthy d "too_generic" || flagTruthy d "missing_proficiency") = true →
      process_skills o { suggestions := [], calls := [] } r (PyVal.dict d) =
        { suggestions := append_if_changed [] "skills"
            (if flagTruthy d "too_generic" then "Skills too generic"
             else "Missing proficiency levels")
            (get_skills_text r) (o 0 (get_skills_text r) instr_skills),
          calls := [(get_skills_text r, instr_skills)] }) ∧
    ((get_skills_text r).isEmpty = true →
      process_skills o { suggestions := [], calls := [] } r (PyVal.dict d) =
        { suggestions := [], calls := [] }) := by
  constructor
  · intro he hf
    rw [Bool.or_eq_true] at hf
    rcases hf with h | h <;> simp [process_skills, tryImprove, he, h]
  · intro he
    simp [process_skills, he]

/-- C9 witness: both flags set, showing the Skills too generic label
winning, on a concrete skills list. -/
theorem skills_handler_single_call_witness :
    process_skills (fun _ _ _ => "Python (advanced), SQL (expert)")
        { suggestions := [], calls := [] }
        [("skills", PyVal.list [PyVal.str "Python", PyVal.str "SQL"])]
        (PyVal.dict [("too_generic", PyVal.other true),
                     ("missing_proficiency", PyVal.other true)]) =
      { suggestions := append_if_changed [] "skills"
          (if flagTruthy [("too_generic", PyVal.other true),
                          ("missing_proficiency", PyVal.other true)] "too_generic"
           then "Skills too generic" else "Missing proficiency levels")
          (get_skills_text [("skills", PyVal.list [PyVal.str "Python", PyVal.str "SQL"])])
          ((fun _ _ _ => "Python (advanced), SQL (expert)") 0
            (get_skills_text [("skills", PyVal.list [PyVal.str "Python", PyVal.str "SQL"])])
            instr_skills),
        calls := [(get_skills_text
          [("skills", PyVal.list [PyVal.str "Python", PyVal.str "SQL"])], instr_skills)] } :=
  (skills_handler_single_call (fun _ _ _ => "Python (advanced), SQL (expert)")
    [("skills", PyVal.list [PyVal.str "Python", PyVal.str "SQL"])]
    [("too_generic", PyVal.other true), ("missing_proficiency", PyVal.other true)]).1
    (by decide) (by decide)

/-- C10: Out-of-range index safety: an issue entry whose index has no
corresponding item flattens to empty text and is skipped, scheduling no
oracle call and no suggestion, and the handlers behave exactly as if
that entry were the skipped value None, the rest of the section
processed normally; totality of the embedding reflects that no exception
is raised. -/
theorem out_of_range_index_skip (o : Oracle) (s : GenState) (lbl gi : String)
    (items : List PyVal) (issues : List PyVal) (idx : Nat) (v : PyVal)
    (h : items.length ≤ idx) :
    simpleItemSched lbl gi items idx v = [] ∧
    expItemSched lbl items idx v = [] ∧
    process_simple_list_section o s lbl items (PyVal.list issues) gi
      = process_simple_list_section o s lbl items (PyVal.list (issues.set idx PyVal.none)) gi ∧
    process_experience_like o s lbl items (PyVal.list issues)
      = process_experience_like o s lbl items (PyVal.list (issues.set idx PyVal.none)) := by
  refine ⟨simpleItemSched_out_of_range lbl gi items idx v h,
    expItemSched_out_of_range lbl items idx v h, ?_, ?_⟩
  · rw [process_simple_list_section_eq, process_simple_list_section_eq]
    simp only [simpleSectionSched]
    rw [simpleSched_set_out_of_range lbl gi items issues 0 idx (by omega)]
  · rw [process_experience_like_eq, process_experience_like_eq]
    simp only [expLikeSched]
    rw [expSched_set_out_of_range lbl items issues 0 idx (by omega)]

/-- C10 witness: a two-entry issues list against a one-item section with
the second index out of range. -/
theorem out_of_range_index_skip_witness :
    simpleItemSched "awards_achievements" gi_awards [PyVal.str "A"] 1
        (PyVal.dict [("too_generic", PyVal.other true)]) = [] ∧
    expItemSched "awards_achievements" [PyVal.str "A"] 1
        (PyVal.dict [("too_generic", PyVal.other true)]) = [] ∧
    process_simple_list_section (fun _ _ _ => "B") { suggestions := [], calls := [] }
        "awards_achievements" [PyVal.str "A"]
        (PyVal.list [PyVal.dict [("too_generic", PyVal.other true)],
                     PyVal.dict [("too_generic", PyVal.other true)]]) gi_awards
      = process_simple_list_section (fun _ _ _ => "B") { suggestions := [], calls := [] }
        "awards_achievements" [PyVal.str "A"]
        (PyVal.list ([PyVal.dict [("too_generic", PyVal.other true)],
                      PyVal.dict [("too_generic", PyVal.other true)]].set 1 PyVal.none)) gi_awards ∧
    process_experience_like (fun _ _ _ => "B") { suggestions := [], calls := [] }
        "awards_achievements" [PyVal.str "A"]
        (PyVal.list [PyVal.dict [("too_generic", PyVal.other true)],
                     PyVal.dict [("too_generic", PyVal.other true)]])
      = process_experience_like (fun _ _ _ => "B") { suggestions := [], calls := [] }
        "awards_achievements" [PyVal.str "A"]
        (PyVal.list ([PyVal.dict [("too_generic", PyVal.other true)],
                      PyVal.dict [("too_generic", PyVal.other true)]].set 1 PyVal.none)) :=
  out_of_range_index_skip (fun _ _ _ => "B") { suggestions := [], calls := [] }
    "awards_achievements" gi_awards [PyVal.str "A"]
    [PyVal.dict [("too_generic", PyVal.other true)],
     PyVal.dict [("too_generic", PyVal.other true)]] 1
    (PyVal.dict [("too_generic", PyVal.other true)]) (by decide)
